import Mathlib

/-!
Verification development for `aero_surrogate/windows/scripts/generate_blade_step.py`,
a script that loads blade cross-section point files (`sec*.dat`), fits a closed
curve through each section, lofts a solid through the sections with a CAD kernel,
and exports the result as a STEP file.

Shallow embedding conventions:
* Floating-point coordinates are modelled by exact rationals (`ℚ`); the script's
  arithmetic on them (differences, squares, comparison against `tol**2`) is
  embedded verbatim over `ℚ`.
* `numpy` arrays of coordinates are Lean lists; a loaded table (`np.loadtxt`
  result) is either a 1-D row (`ndim == 1`) or a 2-D list of rows.  Real numpy
  arrays are rectangular, so theorems about 2-D data carry an explicit
  rectangularity hypothesis.
* The filesystem is explicit: a case directory is the list of its entry names,
  file contents are a function from name to loaded table, and written files are
  an association list from path to content.
* The OCC CAD kernel is opaque.  Its observable outputs that the script branches
  on (`loft.IsDone()`, `analyzer.IsValid()`, the computed volume, the STEP
  writer's transfer/write statuses, the serialized STEP text) are parameters of
  the embedding; a "wire" is identified with the point list handed to the kernel
  and a "shape" with the ordered list of wires the loft was built from.
* Python exceptions are `Except` errors; the error constructor records which
  `raise` fired.
-/

/-- Error kinds raised by the script: `FileNotFoundError` for a case directory
with no numeric `sec*.dat` files, `ValueError` for a section file with fewer
than 3 columns, and the three `RuntimeError`s for loft / STEP-transfer /
STEP-write failures. -/
inductive RunError where
  | notFound
  | badFormat
  | loftFailed
  | transferFailed
  | writeFailed
deriving DecidableEq

/-- Result of `np.loadtxt`: a 1-D array (single row, or single column read as a
flat vector) or a 2-D array given by its rows. -/
inductive NDArray where
  | one (row : List ℚ)
  | two (rows : List (List ℚ))

/-- The `data[None, :]` reshape of `load_section_points`: a 1-D array becomes a
one-row table, a 2-D array is left as is. -/
def reshape2d : NDArray → List (List ℚ)
  | .one row => [row]
  | .two rows => rows

/-- `data.shape[1]` of a (rectangular, nonempty) table of rows. -/
def numCols (rows : List (List ℚ)) : Nat := (rows.headD []).length

/-- Column extraction `data[:, j]`.  On rectangular input with `j < numCols`
every access is in bounds and the default is never used. -/
def column (j : Nat) (rows : List (List ℚ)) : List ℚ := rows.map fun r => r.getD j 0

/-- `load_section_points`: reshape 1-D data to one row, require at least 3
columns (else `ValueError`), and return the first three columns as x, y, z. -/
def load_section_points (data : NDArray) : Except RunError (List ℚ × List ℚ × List ℚ) :=
  let rows := reshape2d data
  if numCols rows < 3 then
    .error .badFormat
  else
    .ok (column 0 rows, column 1 rows, column 2 rows)

/-- Squared endpoint gap `dx*dx + dy*dy + dz*dz` of `bspline_wire_from_xyz`,
computed from the last (`x[-1]`) and first (`x[0]`) entries of each coordinate
array.  The defaults of `getLastD`/`headD` are irrelevant on the nonempty arrays
the script indexes. -/
def gapSq (x y z : List ℚ) : ℚ :=
  let dx := x.getLastD 0 - x.headD 0
  let dy := y.getLastD 0 - y.headD 0
  let dz := z.getLastD 0 - z.headD 0
  dx * dx + dy * dy + dz * dz

/-- The loop-closing step of `bspline_wire_from_xyz`: when the squared endpoint
gap exceeds `tol**2`, append the first point to the end of each coordinate array
(`np.append(x, x[0])` etc.); otherwise leave all three unchanged. -/
def closeLoop (tol : ℚ) (x y z : List ℚ) : List ℚ × List ℚ × List ℚ :=
  if gapSq x y z > tol ^ 2 then
    (x ++ [x.headD 0], y ++ [y.headD 0], z ++ [z.headD 0])
  else
    (x, y, z)

/-- A wire is identified with the point array handed to the kernel's B-spline
fit: the triple `(x[i], y[i], z[i])` for each index. -/
abbrev Wire := List (ℚ × ℚ × ℚ)

/-- The point array `pts` of `bspline_wire_from_xyz`: `gp_Pnt(x[i], y[i], z[i])`
for `i` in range.  On the equal-length arrays the script builds, `zip` visits
exactly the indices `0 ≤ i < n`. -/
def pointsOf (x y z : List ℚ) : Wire := x.zip (y.zip z)

/-- `bspline_wire_from_xyz` up to the opaque kernel calls: close the loop, then
hand the points to the B-spline/edge/wire constructors. -/
def bspline_wire_from_xyz (tol : ℚ) (x y z : List ℚ) : Wire :=
  let xyz := closeLoop tol x y z
  pointsOf xyz.1 xyz.2.1 xyz.2.2

/-- Default tolerance `tol=1e-6` of `bspline_wire_from_xyz`. -/
def defaultTol : ℚ := 1 / 1000000

/-- Glob match against the pattern `sec*.dat`: the name starts with `sec`, ends
with `.dat`, and is long enough that the two do not overlap (equivalently, the
name is `sec` ++ anything ++ `.dat`). -/
def globSecDat (name : String) : Bool :=
  "sec".data.isPrefixOf name.data && ".dat".data.isSuffixOf name.data
    && decide (7 ≤ name.length)

/-- The filter `any(ch.isdigit() for ch in basename)`. -/
def hasDigit (name : String) : Bool := name.data.any Char.isDigit

/-- Value of a decimal digit string, as computed by Python's `int`. -/
def natOfDigits (cs : List Char) : Nat :=
  cs.foldl (fun n c => 10 * n + (c.toNat - '0'.toNat)) 0

/-- Sort key of `build_blade_solid_from_case`:
`int("".join(ch for ch in basename if ch.isdigit()))`. -/
def secKey (name : String) : Nat := natOfDigits (name.data.filter Char.isDigit)

/-- Section discovery of `build_blade_solid_from_case`: glob `sec*.dat` over the
directory entries, keep the names containing a digit, and stable-sort by the
numeric key.  Python's `sorted` is a stable sort by the key; `insertionSort`
with the non-strict key comparison is the same stable sort. -/
def discoverSections (entries : List String) : List String :=
  List.insertionSort (fun a b => secKey a ≤ secKey b)
    ((entries.filter globSecDat).filter hasDigit)

/-- Kernel-reported outcomes the script branches on after `loft.Build()`:
`loft.IsDone()`, `analyzer.IsValid()` and the volume `props.Mass()`. -/
structure Kernel where
  loftDone : Bool
  isValid : Bool
  volume : ℚ

/-- The body of the section loop of `build_blade_solid_from_case`: load one
section file and build its closed wire (a `ValueError` from loading propagates,
modelled as `badFormat`). -/
def loadWire (content : String → NDArray) (name : String) : Except RunError Wire :=
  match load_section_points (content name) with
  | .error e => .error e
  | .ok (x, y, z) => .ok (bspline_wire_from_xyz defaultTol x y z)

/-- The section loop itself: build the wires in discovery order, stopping at the
first error, exactly as the `for` loop raises on the first bad file. -/
def loadWires (content : String → NDArray) : List String → Except RunError (List Wire)
  | [] => .ok []
  | s :: rest =>
    match loadWire content s with
    | .error e => .error e
    | .ok w =>
      match loadWires content rest with
      | .error e => .error e
      | .ok ws => .ok (w :: ws)

/-- The diagnostic warnings printed after a completed loft: invalid-shape
warning from `BRepCheck_Analyzer`, then the non-positive-volume warning. -/
def warningsOf (valid : Bool) (vol : ℚ) : List String :=
  (if valid then [] else ["WARNING: OCC reports shape as INVALID."])
    ++ (if vol ≤ 0 then
          ["WARNING: Volume <= 0. Shape may still be a shell in the STEP export."]
        else [])

/-- `build_blade_solid_from_case`: discover and sort the sections, raise
`FileNotFoundError` when none exist, build one closed wire per section, run the
loft, raise `RuntimeError` when the kernel reports the loft incomplete, and
otherwise return the shape together with the diagnostic warnings (which never
affect the returned value). -/
def build_blade_solid_from_case (entries : List String) (content : String → NDArray)
    (k : Kernel) : Except RunError (List Wire) × List String :=
  let secs := discoverSections entries
  if secs.isEmpty then
    (.error .notFound, [])
  else
    match loadWires content secs with
    | .error e => (.error e, [])
    | .ok wires =>
      if k.loftDone then
        (.ok wires, warningsOf k.isValid k.volume)
      else
        (.error .loftFailed, [])

/-- Return statuses of the STEP writer (`IFSelect_ReturnStatus`). -/
inductive RetStatus where
  | retVoid
  | retDone
  | retError
  | retFail
  | retStop
deriving DecidableEq

/-- The opaque `STEPControl_Writer`: the statuses its `Transfer` and `Write`
calls report, and the serialization it would write for a given shape. -/
structure StepWriter where
  transferStatus : RetStatus
  writeStatus : RetStatus
  serialize : List Wire → String

/-- Files on disk: an association list from path to content, newest write
first. -/
abbrev FileSystem := List (String × String)

/-- Creating or overwriting the file at `path`. -/
def fsWrite (fs : FileSystem) (path text : String) : FileSystem := (path, text) :: fs

/-- Reading the current content of the file at `path`, if present. -/
def fsRead (fs : FileSystem) (path : String) : Option String := fs.lookup path

/-- `export_step`: raise on a transfer status other than `IFSelect_RetDone`,
then raise on a write status other than `IFSelect_RetDone`, and otherwise write
the serialized shape at `out_path`.  On either failure the filesystem is
returned unchanged. -/
def export_step (w : StepWriter) (shape : List Wire) (out_path : String)
    (fs : FileSystem) : Except RunError Unit × FileSystem :=
  if w.transferStatus ≠ .retDone then
    (.error .transferFailed, fs)
  else if w.writeStatus ≠ .retDone then
    (.error .writeFailed, fs)
  else
    (.ok (), fsWrite fs out_path (w.serialize shape))

/-- `os.path.join` for the case directory and output file name. -/
def joinPath (dir name : String) : String := dir ++ "/" ++ name

/-- The `__main__` block, generalized over the hardcoded case directory and
label: build the solid, then export it to
`os.path.join(case_dir, f"blade_{case_label}.step")`.  Any error leaves the
filesystem unchanged. -/
def mainRun (entries : List String) (content : String → NDArray) (k : Kernel)
    (w : StepWriter) (fs : FileSystem) (case_dir case_label : String) :
    Except RunError Unit × FileSystem :=
  match build_blade_solid_from_case entries content k with
  | (.error e, _) => (.error e, fs)
  | (.ok shape, _) =>
    export_step w shape (joinPath case_dir ("blade_" ++ case_label ++ ".step")) fs

/-- Heap model for the mutation claim: numpy arrays live in a store and the
script's variables are references into it. -/
structure Store where
  arrays : List (List ℚ)

/-- Dereference: the array a reference points to. -/
def Store.read (s : Store) (r : Nat) : List ℚ := s.arrays.getD r []

/-- `np.append(arr, v)`: allocates a fresh array holding the old contents plus
`v` and returns a reference to it; the arrays already in the store are not
touched. -/
def npAppend (s : Store) (r : Nat) (v : ℚ) : Store × Nat :=
  (⟨s.arrays ++ [s.read r ++ [v]]⟩, s.arrays.length)

/-- The loop-closing step of `bspline_wire_from_xyz` at the store level: the
rebindings `x = np.append(x, x[0])` etc. allocate three fresh arrays and point
the local variables at them. -/
def closeLoopRefs (tol : ℚ) (s : Store) (rx ry rz : Nat) : Store × Nat × Nat × Nat :=
  if gapSq (s.read rx) (s.read ry) (s.read rz) > tol ^ 2 then
    let p1 := npAppend s rx ((s.read rx).headD 0)
    let p2 := npAppend p1.1 ry ((p1.1.read ry).headD 0)
    let p3 := npAppend p2.1 rz ((p2.1.read rz).headD 0)
    (p3.1, p1.2, p2.2, p3.2)
  else
    (s, rx, ry, rz)

/-- Concrete one-section case data used by the witnesses: a directory holding
`sec1.dat` whose content is the single point (0, 0, 0). -/
def demoContent : String → NDArray := fun _ => NDArray.two [[0, 0, 0]]

/-- The wire the demo section produces: its endpoint gap is zero, so no closing
point is appended. -/
def demoWire : Wire := [(0, 0, 0)]

/-- A STEP writer whose kernel calls succeed and which serializes every shape to
the text "STEP". -/
def demoWriter : StepWriter := ⟨.retDone, .retDone, fun _ => "STEP"⟩

/-! ## Helper lemmas -/

/-- A nonempty string has positive length. -/
theorem length_pos_of_ne_empty {s : String} (h : s ≠ "") : 0 < s.length := by
  cases s with
  | mk data =>
    cases data with
    | nil => simp at h
    | cons a l => simp [String.length]

/-- Appending the head to the end of a list does not change its head. -/
theorem headD_append_self (x : List ℚ) : (x ++ [x.headD 0]).headD 0 = x.headD 0 := by
  cases x <;> simp

/-- After appending the first point of each array, the endpoint gap is zero. -/
theorem gapSq_append_closed (x y z : List ℚ) :
    gapSq (x ++ [x.headD 0]) (y ++ [y.headD 0]) (z ++ [z.headD 0]) = 0 := by
  simp only [gapSq, List.getLastD_concat, headD_append_self]
  ring

/-- Reading below the length of the left part of an appended list ignores the
right part. -/
theorem getD_append_lt {α : Type} (l l' : List α) (d : α) (r : Nat)
    (h : r < l.length) : (l ++ l').getD r d = l.getD r d := by
  simp [List.getD, List.getElem?_append_left h]

/-- A list that is not `[]` has `isEmpty = false`. -/
theorem isEmpty_false_of_ne_nil {α : Type} {l : List α} (h : l ≠ []) :
    l.isEmpty = false := by
  cases l with
  | nil => exact absurd rfl h
  | cons a t => rfl

/-- The demo directory discovers exactly its single section file. -/
theorem demo_secs : discoverSections ["sec1.dat"] = ["sec1.dat"] := by decide

/-- Loading the demo section file yields the single point (0, 0, 0). -/
theorem demo_load_points :
    load_section_points (NDArray.two [[0, 0, 0]]) = .ok ([0], [0], [0]) := rfl

/-- The demo section is already closed, so `closeLoop` leaves it unchanged. -/
theorem demo_close : closeLoop defaultTol [0] [0] [0] = ([0], [0], [0]) := by
  unfold closeLoop
  rw [if_neg]
  norm_num [gapSq, defaultTol]

/-- Building the wire of the demo section. -/
theorem demo_load : loadWire demoContent "sec1.dat" = .ok demoWire := by
  simp [loadWire, demoContent, demo_load_points, bspline_wire_from_xyz, demo_close,
    pointsOf, demoWire]

/-- The section loop over the demo directory produces the single demo wire. -/
theorem demo_wires : loadWires demoContent ["sec1.dat"] = .ok [demoWire] := by
  simp [loadWires, demo_load]

/-- Building the demo case succeeds with the single demo wire. -/
theorem demo_build :
    build_blade_solid_from_case ["sec1.dat"] demoContent ⟨true, true, 1⟩
      = (.ok [demoWire], warningsOf true 1) := by
  simp [build_blade_solid_from_case, demo_secs, demo_wires]

/-- Running the whole demo pipeline writes the STEP text at the joined path. -/
theorem demo_main_run :
    mainRun ["sec1.dat"] demoContent ⟨true, true, 1⟩ demoWriter [] "case" "c1"
      = (.ok (), [("case/blade_c1.step", "STEP")]) := by
  simp [mainRun, demo_build, export_step, demoWriter, joinPath, fsWrite]

/-! ## Claim theorems -/

/-- C2: for equal-length coordinate sequences, `bspline_wire_from_xyz` appends a
copy of the first point to each array exactly when the squared endpoint gap
exceeds `tol**2`; afterwards the endpoint gap is within tolerance, and when the
original gap is already within tolerance the data is left unmodified. -/
theorem bspline_close_spec (tol : ℚ) (x y z : List ℚ)
    (hxy : x.length = y.length) (hyz : y.length = z.length) :
    (tol ^ 2 < gapSq x y z →
      closeLoop tol x y z = (x ++ [x.headD 0], y ++ [y.headD 0], z ++ [z.headD 0])) ∧
    (gapSq x y z ≤ tol ^ 2 → closeLoop tol x y z = (x, y, z)) ∧
    gapSq (closeLoop tol x y z).1 (closeLoop tol x y z).2.1 (closeLoop tol x y z).2.2
      ≤ tol ^ 2 := by
  refine ⟨fun h => ?_, fun h => ?_, ?_⟩
  · simp [closeLoop, h]
  · simp [closeLoop, not_lt.mpr h]
  · by_cases h : tol ^ 2 < gapSq x y z
    · rw [closeLoop, if_pos h, gapSq_append_closed]
      exact sq_nonneg tol
    · rw [closeLoop, if_neg h]
      exact not_lt.mp h

/-- C2 witness: on the sequences `[1, 2]` (gap 3 against tolerance 0) the three
conclusions hold at a concrete input. -/
theorem bspline_close_spec_witness :
    ((0 : ℚ) ^ 2 < gapSq [1, 2] [1, 2] [1, 2] →
      closeLoop 0 [1, 2] [1, 2] [1, 2] =
        ([1, 2] ++ [List.headD [1, 2] 0], [1, 2] ++ [List.headD [1, 2] 0],
          [1, 2] ++ [List.headD [1, 2] 0])) ∧
    (gapSq [1, 2] [1, 2] [1, 2] ≤ (0 : ℚ) ^ 2 →
      closeLoop 0 [1, 2] [1, 2] [1, 2] = ([1, 2], [1, 2], [1, 2])) ∧
    gapSq (closeLoop 0 [1, 2] [1, 2] [1, 2]).1 (closeLoop 0 [1, 2] [1, 2] [1, 2]).2.1
      (closeLoop 0 [1, 2] [1, 2] [1, 2]).2.2 ≤ (0 : ℚ) ^ 2 :=
  bspline_close_spec 0 [1, 2] [1, 2] [1, 2] rfl rfl

/-- C8: when `load_section_points` succeeds, the three coordinate sequences all
have one entry per row of the table; and the closing step extends all three
sequences by exactly one element or leaves all three unchanged. -/
theorem coordinate_lengths_spec :
    (∀ (d : NDArray) (x y z : List ℚ), load_section_points d = .ok (x, y, z) →
      x.length = (reshape2d d).length ∧ y.length = (reshape2d d).length ∧
        z.length = (reshape2d d).length) ∧
    (∀ (tol : ℚ) (x y z : List ℚ), x.length = y.length → y.length = z.length →
      ((closeLoop tol x y z).1.length = x.length + 1 ∧
        (closeLoop tol x y z).2.1.length = y.length + 1 ∧
        (closeLoop tol x y z).2.2.length = z.length + 1) ∨
      closeLoop tol x y z = (x, y, z)) := by
  constructor
  · intro d x y z h
    simp only [load_section_points] at h
    split at h
    · simp at h
    · simp only [Except.ok.injEq, Prod.mk.injEq] at h
      obtain ⟨h1, h2, h3⟩ := h
      subst h1
      subst h2
      subst h3
      simp [column]
  · intro tol x y z hxy hyz
    by_cases h : tol ^ 2 < gapSq x y z
    · left
      simp [closeLoop, h]
    · right
      simp [closeLoop, h]

/-- C8 witness: the demo table yields three sequences of length one, and the
closing step on `[0]` changes nothing. -/
theorem coordinate_lengths_spec_witness :
    (([(0 : ℚ)].length = (reshape2d (NDArray.two [[0, 0, 0]])).length ∧
      [(0 : ℚ)].length = (reshape2d (NDArray.two [[0, 0, 0]])).length ∧
      [(0 : ℚ)].length = (reshape2d (NDArray.two [[0, 0, 0]])).length) ∧
    (((closeLoop 0 [0] [0] [0]).1.length = [(0 : ℚ)].length + 1 ∧
      (closeLoop 0 [0] [0] [0]).2.1.length = [(0 : ℚ)].length + 1 ∧
      (closeLoop 0 [0] [0] [0]).2.2.length = [(0 : ℚ)].length + 1) ∨
      closeLoop 0 [0] [0] [0] = ([0], [0], [0]))) :=
  ⟨coordinate_lengths_spec.1 (NDArray.two [[0, 0, 0]]) [0] [0] [0] demo_load_points,
    coordinate_lengths_spec.2 0 [0] [0] [0] rfl rfl⟩

/-- C9: the closing step never mutates the caller's arrays: `np.append`
allocates fresh arrays, so every array already in the store reads the same
before and after the call. -/
theorem closeLoop_no_mutation (tol : ℚ) (s : Store) (rx ry rz r : Nat)
    (h : r < s.arrays.length) :
    ((closeLoopRefs tol s rx ry rz).1).read r = s.read r := by
  rw [closeLoopRefs]
  by_cases hc : gapSq (s.read rx) (s.read ry) (s.read rz) > tol ^ 2
  · rw [if_pos hc]
    show (((s.arrays ++ _) ++ _) ++ _).getD r [] = s.arrays.getD r []
    rw [getD_append_lt, getD_append_lt, getD_append_lt]
    · exact h
    · simpa using Nat.lt_succ_of_lt h
    · simpa using Nat.lt_succ_of_lt (by simpa using Nat.lt_succ_of_lt h)
  · rw [if_neg hc]

/-- C9 witness: a concrete two-array store is unchanged at reference 1 by a
closing call on references 0, 0, 1. -/
theorem closeLoop_no_mutation_witness :
    ((closeLoopRefs 1 ⟨[[0], [5]]⟩ 0 0 1).1).read 1 = (Store.mk [[0], [5]]).read 1 :=
  closeLoop_no_mutation 1 ⟨[[0], [5]]⟩ 0 0 1 1 (by norm_num)

/-- C10: when a closing point is appended the new last point of each array
equals its first point exactly, and the closing step is idempotent: applying it
to its own output changes nothing. -/
theorem closeLoop_idempotent (tol : ℚ) (x y z : List ℚ) :
    (tol ^ 2 < gapSq x y z →
      ((closeLoop tol x y z).1.getLastD 0 = (closeLoop tol x y z).1.headD 0 ∧
        (closeLoop tol x y z).2.1.getLastD 0 = (closeLoop tol x y z).2.1.headD 0 ∧
        (closeLoop tol x y z).2.2.getLastD 0 = (closeLoop tol x y z).2.2.headD 0)) ∧
    closeLoop tol (closeLoop tol x y z).1 (closeLoop tol x y z).2.1
      (closeLoop tol x y z).2.2 = closeLoop tol x y z := by
  by_cases h : tol ^ 2 < gapSq x y z
  · rw [closeLoop, if_pos h]
    constructor
    · intro _
      refine ⟨?_, ?_, ?_⟩ <;> rw [List.getLastD_concat, headD_append_self]
    · rw [closeLoop, if_neg]
      rw [gapSq_append_closed]
      exact not_lt.mpr (sq_nonneg tol)
  · rw [closeLoop, if_neg h]
    exact ⟨fun hc => absurd hc h, by rw [closeLoop, if_neg h]⟩

/-- C10 witness: on `[0, 1]` with tolerance 0 a closing point is appended, the
appended arrays end at their first point, and re-closing changes nothing. -/
theorem closeLoop_idempotent_witness :
    ((closeLoop 0 [0, 1] [0, 1] [0, 1]).1.getLastD 0 =
        (closeLoop 0 [0, 1] [0, 1] [0, 1]).1.headD 0 ∧
      (closeLoop 0 [0, 1] [0, 1] [0, 1]).2.1.getLastD 0 =
        (closeLoop 0 [0, 1] [0, 1] [0, 1]).2.1.headD 0 ∧
      (closeLoop 0 [0, 1] [0, 1] [0, 1]).2.2.getLastD 0 =
        (closeLoop 0 [0, 1] [0, 1] [0, 1]).2.2.headD 0) ∧
    closeLoop 0 (closeLoop 0 [0, 1] [0, 1] [0, 1]).1
      (closeLoop 0 [0, 1] [0, 1] [0, 1]).2.1
      (closeLoop 0 [0, 1] [0, 1] [0, 1]).2.2 = closeLoop 0 [0, 1] [0, 1] [0, 1] :=
  ⟨(closeLoop_idempotent 0 [0, 1] [0, 1] [0, 1]).1
      (by norm_num [gapSq, List.getLastD]),
    (closeLoop_idempotent 0 [0, 1] [0, 1] [0, 1]).2⟩

/-- C1 counterexample: in a directory holding `sec1.dat` and `sec01.dat` —
two valid section files with the same numeric key 1 — both are discovered, but
the processing order cannot be strictly ascending in the key. -/
theorem sections_strict_order_counterexample :
    (discoverSections ["sec1.dat", "sec01.dat"]).length = 2 ∧
    ¬ (discoverSections ["sec1.dat", "sec01.dat"]).Pairwise
        (fun a b => secKey a < secKey b) := by
  decide

/-- C1 (amended): the loader discovers exactly the `sec*.dat` entries whose
basename contains a digit, and processes them in ascending (non-decreasing)
order of the integer formed by the digit characters of the basename; the order
is strictly ascending whenever those integers are pairwise distinct. -/
theorem sections_sorted_by_key (entries : List String) :
    (discoverSections entries).Perm ((entries.filter globSecDat).filter hasDigit) ∧
    (discoverSections entries).Pairwise (fun a b => secKey a ≤ secKey b) ∧
    (((entries.filter globSecDat).filter hasDigit).Pairwise
        (fun a b => secKey a ≠ secKey b) →
      (discoverSections entries).Pairwise (fun a b => secKey a < secKey b)) := by
  have hperm := List.perm_insertionSort (fun a b => secKey a ≤ secKey b)
    ((entries.filter globSecDat).filter hasDigit)
  haveI : IsTotal String (fun a b => secKey a ≤ secKey b) :=
    ⟨fun a b => Nat.le_total (secKey a) (secKey b)⟩
  haveI : IsTrans String (fun a b => secKey a ≤ secKey b) :=
    ⟨fun a b c hab hbc => Nat.le_trans hab hbc⟩
  have hsort : (discoverSections entries).Pairwise (fun a b => secKey a ≤ secKey b) :=
    List.sorted_insertionSort (fun a b => secKey a ≤ secKey b)
      ((entries.filter globSecDat).filter hasDigit)
  refine ⟨hperm, hsort, fun hne => ?_⟩
  have hne' : (discoverSections entries).Pairwise (fun a b => secKey a ≠ secKey b) :=
    (List.Perm.pairwise_iff (fun hab h => hab h.symm) hperm).mpr hne
  exact (hsort.and hne').imp fun h => lt_of_le_of_ne h.1 h.2

/-- C1 witness: `sec2.dat`, `sec10.dat`, `sec1.dat` have the pairwise distinct
keys 2, 10, 1, so the discovered order is strictly ascending in the key. -/
theorem sections_sorted_by_key_witness :
    (discoverSections ["sec2.dat", "sec10.dat", "sec1.dat"]).Pairwise
      (fun a b => secKey a < secKey b) :=
  (sections_sorted_by_key ["sec2.dat", "sec10.dat", "sec1.dat"]).2.2 (by decide)

/-- C3: on a nonempty rectangular table of width `w`, `load_section_points`
fails exactly when `w < 3`, otherwise returns the first three columns; a 1-D
input is first reshaped into a one-row table. -/
theorem load_section_points_spec (d : NDArray) (w : Nat)
    (hw : ∀ r ∈ reshape2d d, r.length = w) (hne : reshape2d d ≠ []) :
    ((∃ v, load_section_points d = .ok v) ↔ 3 ≤ w) ∧
    (¬ 3 ≤ w → load_section_points d = .error .badFormat) ∧
    (3 ≤ w → load_section_points d =
      .ok (column 0 (reshape2d d), column 1 (reshape2d d), column 2 (reshape2d d))) ∧
    (∀ row : List ℚ, reshape2d (NDArray.one row) = [row]) := by
  have hcols : numCols (reshape2d d) = w := by
    rcases hr : reshape2d d with _ | ⟨a, t⟩
    · exact absurd hr hne
    · simpa [numCols] using hw a (hr ▸ List.mem_cons_self a t)
  refine ⟨?_, fun h => ?_, fun h => ?_, fun row => rfl⟩
  · constructor
    · rintro ⟨v, hv⟩
      by_contra h
      rw [load_section_points] at hv
      rw [if_pos (hcols ▸ Nat.lt_of_not_le h)] at hv
      exact Except.noConfusion hv
    · intro h
      exact ⟨_, by rw [load_section_points, if_neg (by omega)]⟩
  · rw [load_section_points, if_pos (by omega)]
  · rw [load_section_points, if_neg (by omega)]

/-- C3 witness: a 2-row, 3-column table loads successfully into its three
columns, and a 2-column table is rejected. -/
theorem load_section_points_spec_witness :
    ((∃ v, load_section_points (NDArray.two [[1, 2, 3], [4, 5, 6]]) = .ok v) ↔
        3 ≤ 3) ∧
    (¬ 3 ≤ 2 → load_section_points (NDArray.two [[1, 2], [4, 5]]) =
        .error .badFormat) :=
  ⟨(load_section_points_spec (NDArray.two [[1, 2, 3], [4, 5, 6]]) 3
      (by decide) (by decide)).1,
    (load_section_points_spec (NDArray.two [[1, 2], [4, 5]]) 2
      (by decide) (by decide)).2.1⟩

/-- C4: when the case directory has no `sec*.dat` entry with a digit in its
basename, `build_blade_solid_from_case` raises `FileNotFoundError`; the result
carries no wires and no warnings, since the error is raised before any curve is
built. -/
theorem build_empty_case_not_found (entries : List String)
    (content : String → NDArray) (k : Kernel)
    (h : (entries.filter globSecDat).filter hasDigit = []) :
    build_blade_solid_from_case entries content k = (.error .notFound, []) := by
  have hd : discoverSections entries = [] := by
    rw [discoverSections, h]
    rfl
  rw [build_blade_solid_from_case, hd]
  rfl

/-- C4 witness: a directory with a non-matching entry and a digitless `sec.dat`
raises the not-found error. -/
theorem build_empty_case_not_found_witness :
    build_blade_solid_from_case ["readme.txt", "sec.dat"] demoContent ⟨true, true, 0⟩
      = (.error .notFound, []) :=
  build_empty_case_not_found ["readme.txt", "sec.dat"] demoContent ⟨true, true, 0⟩
    (by decide)

/-- When the build stage fails, `mainRun` propagates its error and leaves the
filesystem unchanged. -/
theorem mainRun_build_error {entries : List String} {content : String → NDArray}
    {k : Kernel} {e : RunError} {warns : List String} (w : StepWriter)
    (fs : FileSystem) (cd cl : String)
    (hb : build_blade_solid_from_case entries content k = (.error e, warns)) :
    mainRun entries content k w fs cd cl = (.error e, fs) := by
  rw [mainRun, hb]

/-- When the build stage returns a shape, `mainRun` exports it to the joined
output path. -/
theorem mainRun_build_ok {entries : List String} {content : String → NDArray}
    {k : Kernel} {shape : List Wire} {warns : List String} (w : StepWriter)
    (fs : FileSystem) (cd cl : String)
    (hb : build_blade_solid_from_case entries content k = (.ok shape, warns)) :
    mainRun entries content k w fs cd cl
      = export_step w shape (joinPath cd ("blade_" ++ cl ++ ".step")) fs := by
  rw [mainRun, hb]

/-- The output path assembled by the entry point, flattened to a single
concatenation. -/
theorem blade_path_eq (cd cl : String) :
    joinPath cd ("blade_" ++ cl ++ ".step") = cd ++ "/blade_" ++ cl ++ ".step" := by
  rw [joinPath]
  calc cd ++ "/" ++ ("blade_" ++ cl ++ ".step")
      = cd ++ ("/" ++ ("blade_" ++ cl ++ ".step")) :=
        String.append_assoc cd "/" ("blade_" ++ cl ++ ".step")
    _ = cd ++ ("/" ++ ("blade_" ++ (cl ++ ".step"))) := by
        rw [String.append_assoc "blade_" cl ".step"]
    _ = cd ++ ("/" ++ "blade_" ++ (cl ++ ".step")) := by
        rw [String.append_assoc "/" "blade_" (cl ++ ".step")]
    _ = cd ++ ("/blade_" ++ (cl ++ ".step")) := rfl
    _ = cd ++ "/blade_" ++ (cl ++ ".step") :=
        (String.append_assoc cd "/blade_" (cl ++ ".step")).symm
    _ = cd ++ "/blade_" ++ cl ++ ".step" :=
        (String.append_assoc (cd ++ "/blade_") cl ".step").symm

/-- C5: every kernel-reported failure raises immediately: an incomplete loft
raises the loft error, a transfer status other than done raises the transfer
error, a write status other than done raises the write error, and any failing
run leaves the filesystem untouched (no retry, no partial output). -/
theorem kernel_failures_raise :
    (∀ (entries : List String) (content : String → NDArray) (k : Kernel)
        (wires : List Wire),
      discoverSections entries ≠ [] →
      loadWires content (discoverSections entries) = .ok wires →
      k.loftDone = false →
      build_blade_solid_from_case entries content k = (.error .loftFailed, [])) ∧
    (∀ (w : StepWriter) (shape : List Wire) (out_path : String) (fs : FileSystem),
      w.transferStatus ≠ .retDone →
      export_step w shape out_path fs = (.error .transferFailed, fs)) ∧
    (∀ (w : StepWriter) (shape : List Wire) (out_path : String) (fs : FileSystem),
      w.transferStatus = .retDone → w.writeStatus ≠ .retDone →
      export_step w shape out_path fs = (.error .writeFailed, fs)) ∧
    (∀ (entries : List String) (content : String → NDArray) (k : Kernel)
        (w : StepWriter) (fs : FileSystem) (cd cl : String) (e : RunError),
      (mainRun entries content k w fs cd cl).1 = .error e →
      (mainRun entries content k w fs cd cl).2 = fs) := by
  refine ⟨?_, ?_, ?_, ?_⟩
  · intro entries content k wires hsec hload hk
    rw [build_blade_solid_from_case]
    rw [if_neg (by simp [isEmpty_false_of_ne_nil hsec])]
    rw [hload, hk]
    rfl
  · intro w shape out_path fs ht
    rw [export_step, if_pos ht]
  · intro w shape out_path fs ht hw
    rw [export_step, if_neg (by simp [ht]), if_pos hw]
  · intro entries content k w fs cd cl e h
    rcases hb : build_blade_solid_from_case entries content k with ⟨res, warns⟩
    cases res with
    | error e' =>
      rw [mainRun_build_error w fs cd cl hb]
    | ok shape =>
      rw [mainRun_build_ok w fs cd cl hb] at h ⊢
      rw [export_step] at h ⊢
      by_cases ht : w.transferStatus ≠ .retDone
      · rw [if_pos ht]
      · rw [if_neg ht] at h ⊢
        by_cases hwr : w.writeStatus ≠ .retDone
        · rw [if_pos hwr]
        · rw [if_neg hwr] at h
          exact absurd h (by simp)

/-- C5 witness: the three failures fire at concrete inputs — a one-section
case with an incomplete loft, a writer whose transfer reports an error, and a
writer whose write reports a failure — and a failing run (empty directory)
leaves the filesystem unchanged. -/
theorem kernel_failures_raise_witness :
    build_blade_solid_from_case ["sec1.dat"] demoContent ⟨false, true, 0⟩
        = (.error .loftFailed, []) ∧
    export_step ⟨.retError, .retDone, fun _ => ""⟩ [] "out.step" []
        = (.error .transferFailed, []) ∧
    export_step ⟨.retDone, .retFail, fun _ => ""⟩ [] "out.step" []
        = (.error .writeFailed, []) ∧
    (mainRun [] demoContent ⟨true, true, 0⟩ demoWriter [("keep", "old")] "d" "l").2
        = [("keep", "old")] :=
  ⟨kernel_failures_raise.1 ["sec1.dat"] demoContent ⟨false, true, 0⟩ [demoWire]
      (by decide) demo_wires rfl,
    kernel_failures_raise.2.1 ⟨.retError, .retDone, fun _ => ""⟩ [] "out.step" []
      (by decide),
    kernel_failures_raise.2.2.1 ⟨.retDone, .retFail, fun _ => ""⟩ [] "out.step" []
      rfl (by decide),
    kernel_failures_raise.2.2.2 [] demoContent ⟨true, true, 0⟩ demoWriter
      [("keep", "old")] "d" "l" .notFound rfl⟩

/-- C6: once the loft completes, validity and volume never abort the pipeline:
for every validity flag and every volume, `build_blade_solid_from_case` still
returns the shape (emitting only the diagnostic warnings) and a successful
export still writes the STEP file. -/
theorem warnings_are_nonfatal (entries : List String) (content : String → NDArray)
    (valid : Bool) (vol : ℚ) (wires : List Wire) (w : StepWriter) (fs : FileSystem)
    (cd cl : String)
    (hsec : discoverSections entries ≠ [])
    (hload : loadWires content (discoverSections entries) = .ok wires)
    (ht : w.transferStatus = .retDone) (hww : w.writeStatus = .retDone) :
    build_blade_solid_from_case entries content ⟨true, valid, vol⟩
        = (.ok wires, warningsOf valid vol) ∧
    mainRun entries content ⟨true, valid, vol⟩ w fs cd cl
        = (.ok (), fsWrite fs (joinPath cd ("blade_" ++ cl ++ ".step"))
            (w.serialize wires)) := by
  have hb : build_blade_solid_from_case entries content ⟨true, valid, vol⟩
      = (.ok wires, warningsOf valid vol) := by
    rw [build_blade_solid_from_case]
    rw [if_neg (by simp [isEmpty_false_of_ne_nil hsec])]
    rw [hload]
    rfl
  refine ⟨hb, ?_⟩
  rw [mainRun_build_ok w fs cd cl hb]
  rw [export_step, if_neg (by simp [ht]), if_neg (by simp [hww])]

/-- C6 witness: a one-section case whose kernel reports an invalid shape of
volume -1 still returns the shape with both warnings, and the run still exports.
-/
theorem warnings_are_nonfatal_witness :
    build_blade_solid_from_case ["sec1.dat"] demoContent ⟨true, false, -1⟩
        = (.ok [demoWire], warningsOf false (-1)) ∧
    mainRun ["sec1.dat"] demoContent ⟨true, false, -1⟩ demoWriter [] "case" "c1"
        = (.ok (), fsWrite [] (joinPath "case" ("blade_" ++ "c1" ++ ".step"))
            (demoWriter.serialize [demoWire])) :=
  warnings_are_nonfatal ["sec1.dat"] demoContent false (-1) [demoWire] demoWriter []
    "case" "c1" (by decide) demo_wires rfl rfl

/-- C7: a successful run writes the STEP file at exactly
`<case_dir>/blade_<case_label>.step`, and (the kernel serializing every shape to
nonempty STEP text) the file exists there afterwards with non-zero size. -/
theorem step_written_at_path (entries : List String) (content : String → NDArray)
    (k : Kernel) (w : StepWriter) (fs fs' : FileSystem) (cd cl : String)
    (hser : ∀ shape : List Wire, w.serialize shape ≠ "")
    (hrun : mainRun entries content k w fs cd cl = (.ok (), fs')) :
    ∃ text, fsRead fs' (cd ++ "/blade_" ++ cl ++ ".step") = some text ∧
      0 < text.length := by
  rcases hb : build_blade_solid_from_case entries content k with ⟨res, warns⟩
  cases res with
  | error e =>
    rw [mainRun_build_error w fs cd cl hb] at hrun
    simp at hrun
  | ok shape =>
    rw [mainRun_build_ok w fs cd cl hb] at hrun
    rw [export_step] at hrun
    by_cases ht : w.transferStatus ≠ .retDone
    · rw [if_pos ht] at hrun
      simp at hrun
    · rw [if_neg ht] at hrun
      by_cases hww : w.writeStatus ≠ .retDone
      · rw [if_pos hww] at hrun
        simp at hrun
      · rw [if_neg hww] at hrun
        have hfs : fs' = fsWrite fs (joinPath cd ("blade_" ++ cl ++ ".step"))
            (w.serialize shape) := (congrArg Prod.snd hrun).symm
        refine ⟨w.serialize shape, ?_, length_pos_of_ne_empty (hser shape)⟩
        rw [hfs, ← blade_path_eq cd cl, fsRead, fsWrite, List.lookup_cons_self]

/-- C7 witness: the demo run writes the text "STEP" at `case/blade_c1.step`. -/
theorem step_written_at_path_witness :
    ∃ text, fsRead [("case/blade_c1.step", "STEP")]
        ("case" ++ "/blade_" ++ "c1" ++ ".step") = some text ∧ 0 < text.length :=
  step_written_at_path ["sec1.dat"] demoContent ⟨true, true, 1⟩ demoWriter []
    [("case/blade_c1.step", "STEP")] "case" "c1"
    (fun _ => (by decide : ("STEP" : String) ≠ "")) demo_main_run
